import Mathlib

/-!
Verification of the staged-registration and dual-channel OTP engine of the
EP (Education Pioneer) Django backend.

Shallow embedding conventions:
* time is measured in minutes as an `Int` (`timezone.now()` becomes a `now`
  parameter);
* a Django queryset of `EmailOTP` / `PhoneOTP` rows for one user is a
  `List Int` of `created_at` stamps (only `created_at` matters to the
  rate-limit logic of `User/views.py`);
* an HTTP response is a `Response` structure holding the status code and the
  body message string produced by the view.
-/

/-- An HTTP response as produced by the DRF views: status code plus the
message carried in the JSON body. -/
structure Response where
  status : Nat
  body : String
deriving DecidableEq, Repr

namespace ResendEmailOTPView

/-- `ResendEmailOTPView.RATE_LIMIT_MINUTES = 10` (src/User/views.py line 274). -/
def RATE_LIMIT_MINUTES : Int := 10

/-- `ResendEmailOTPView.MAX_ATTEMPTS = 3` (src/User/views.py line 275). -/
def MAX_ATTEMPTS : Nat := 3

end ResendEmailOTPView

namespace PasswordResetRequestView

/-- `PasswordResetRequestView.RATE_LIMIT_MINUTES = 15` (src/User/views.py line 213). -/
def RATE_LIMIT_MINUTES : Int := 15

/-- `PasswordResetRequestView.MAX_ATTEMPTS = 5` (src/User/views.py line 214). -/
def MAX_ATTEMPTS : Nat := 5

end PasswordResetRequestView

/-- The queryset filter
`EmailOTP.objects.filter(user=user, created_at__gte=timezone.now() - timedelta(minutes=w))`
used by both rate-limited email views: the events of the user whose
`created_at` is at least `now - w`. -/
def recentOTPs (otps : List Int) (now w : Int) : List Int :=
  otps.filter (fun t => now - w ≤ t)

/-- Result of a rate-limited view call: the HTTP response together with the
user's `EmailOTP` (resp. `PhoneOTP`) rows after the call. -/
structure RateLimitedResult where
  response : Response
  otps : List Int
deriving DecidableEq, Repr

/-- The 429 body of `ResendEmailOTPView.post` (src/User/views.py line 294):
`f"Too many requests. Try again after {self.RATE_LIMIT_MINUTES} minutes."`. -/
def resendDenialBody (m : Int) : String :=
  "Too many requests. Try again after " ++ toString m ++ " minutes."

/-- The 429 body of `PasswordResetRequestView.post` (src/User/views.py line 235):
`f"Too many password reset requests. Try again after {self.RATE_LIMIT_MINUTES} minutes."`. -/
def resetDenialBody (m : Int) : String :=
  "Too many password reset requests. Try again after " ++ toString m ++ " minutes."

/-- `ResendEmailOTPView.post` (src/User/views.py lines 277-300) for a known
user: count the user's `EmailOTP` rows created within the trailing
`RATE_LIMIT_MINUTES`; if at least `MAX_ATTEMPTS`, answer 429 without touching
the store; otherwise `serializer.save()` runs (per the source comment it
creates a new `EmailOTP` row and sends the email; `serializers.py` is not in
src/, so the save effect of appending one row stamped `now` is modelled from
the spec's Code Generator contract) and the view answers 200. -/
def resendEmailOTPPost (otps : List Int) (now : Int) : RateLimitedResult :=
  let recent := recentOTPs otps now ResendEmailOTPView.RATE_LIMIT_MINUTES
  if ResendEmailOTPView.MAX_ATTEMPTS ≤ recent.length then
    { response := { status := 429,
                    body := resendDenialBody ResendEmailOTPView.RATE_LIMIT_MINUTES },
      otps := otps }
  else
    { response := { status := 200, body := "OTP resent successfully." },
      otps := now :: otps }

/-- `PasswordResetRequestView.post` (src/User/views.py lines 216-241) for a
known user (the unknown-identity branch is `passwordResetRequestEndpoint`
below): count the user's `EmailOTP` rows created within the trailing
`RATE_LIMIT_MINUTES`; if at least `MAX_ATTEMPTS`, answer 429 without touching
the store; otherwise `serializer.save()` runs (per the source comment on line
239 it creates an `EmailOTP` and sends mail; the append of one row stamped
`now` is modelled from the spec) and the view answers 200. -/
def passwordResetRequestPost (otps : List Int) (now : Int) : RateLimitedResult :=
  let recent := recentOTPs otps now PasswordResetRequestView.RATE_LIMIT_MINUTES
  if PasswordResetRequestView.MAX_ATTEMPTS ≤ recent.length then
    { response := { status := 429,
                    body := resetDenialBody PasswordResetRequestView.RATE_LIMIT_MINUTES },
      otps := otps }
  else
    { response := { status := 200, body := "Password reset OTP sent to email." },
      otps := now :: otps }

/-- The instant at which the oldest counted event leaves the trailing window
of length `w`, minus `now`: the minutes remaining until the oldest event of
`recentOTPs otps now w` stops being counted. `0` when no event is counted. -/
def minutesUntilOldestExits (otps : List Int) (now w : Int) : Int :=
  match (recentOTPs otps now w).min? with
  | none => 0
  | some oldest => oldest + w - now

/-- `PasswordResetRequestView.post` end to end, identity lookup included.
Modelled from the spec: `serializers.py` (the `validate_email` step) is not in
src/; per the spec, "the source's password-reset flow reveals a 404 when the
email is unregistered", so an email absent from `registeredEmails` is answered
with a distinguishing 404 and the store is untouched, while a registered email
proceeds to the rate-limited flow `passwordResetRequestPost`. -/
def passwordResetRequestEndpoint (registeredEmails : List String) (otps : List Int)
    (email : String) (now : Int) : RateLimitedResult :=
  if registeredEmails.contains email then
    passwordResetRequestPost otps now
  else
    { response := { status := 404, body := "User with this email does not exist." },
      otps := otps }

/-!
## Staged registration, channel verification and promotion

`src/User/admin.py` declares the data model: `PreRegistration` rows carry
`email`, `phone`, `user_type`, `email_verified`, `phone_verified`, `token`,
`password_hash`, `created_at`; `PreEmailOTP` / `PrePhoneOTP` rows carry
`pre` (the owning pre-registration), `otp`, `created_at`, `verified`.
The operational code (`models.py`, `serializers.py`) is not in src/, so the
operations below are modelled from the spec (§4.1-4.5).
-/

/-- A `PreRegistration` row (fields as listed by `PreRegistrationAdmin` in
src/User/admin.py, plus the `promoted` claim flag of spec §4.5). -/
structure PreRegistration where
  email : String
  phone : String
  user_type : String
  password_hash : String
  token : String
  email_verified : Bool
  phone_verified : Bool
  promoted : Bool
  created_at : Int
deriving DecidableEq, Repr

/-- A `PreEmailOTP` / `PrePhoneOTP` row (fields as listed in
src/User/admin.py); the owning pre-registration is referenced by its
promotion token. -/
structure PreOTPRow where
  pre_token : String
  otp : String
  created_at : Int
  verified : Bool
deriving DecidableEq, Repr

/-- A durable `User` account (identity fields as listed by `CustomUserAdmin`
in src/User/admin.py). -/
structure Account where
  email : String
  phone : String
  user_type : String
  password_hash : String
deriving DecidableEq, Repr

/-- The store the staged-registration engine acts on. -/
structure SystemState where
  preRegs : List PreRegistration
  preEmailOTPs : List PreOTPRow
  prePhoneOTPs : List PreOTPRow
  accounts : List Account
deriving DecidableEq, Repr

/-- The durable account built from a staged registration: identity fields and
the hashed credential are copied (spec §4.5). -/
def accountOf (p : PreRegistration) : Account :=
  { email := p.email, phone := p.phone, user_type := p.user_type,
    password_hash := p.password_hash }

/-- Response of `RegisterView.create` (src/User/views.py lines 73-97): on
success the serializer result is a dict holding the promotion token
(`pre_token`) and the view answers 201. -/
structure RegisterResponse where
  status : Nat
  pre_token : String
deriving DecidableEq, Repr

/-- `RegisterView.create` together with the serializer save it delegates to.
Modelled from the spec: `RegisterSerializer.save` is not in src/; per the spec
"a registration request creates a Staged Registration + two pending Channel
Verifications (email, phone) and returns the promotion token".  The generated
token and the two generated codes come from the external Code Generator and
are passed in as `tok`, `ecode`, `pcode`.  The view itself (src) answers 201
whenever the serializer result carries a `pre_token`. -/
def register (s : SystemState) (email phone utype hashed tok ecode pcode : String)
    (now : Int) : RegisterResponse × SystemState :=
  let pre : PreRegistration :=
    { email := email, phone := phone, user_type := utype, password_hash := hashed,
      token := tok, email_verified := false, phone_verified := false,
      promoted := false, created_at := now }
  ({ status := 201, pre_token := tok },
   { preRegs := s.preRegs ++ [pre],
     preEmailOTPs := s.preEmailOTPs ++
       [{ pre_token := tok, otp := ecode, created_at := now, verified := false }],
     prePhoneOTPs := s.prePhoneOTPs ++
       [{ pre_token := tok, otp := pcode, created_at := now, verified := false }],
     accounts := s.accounts })

/-- Outcome of presenting a promotion token to the Promotion Engine. -/
inductive ConsumeOutcome where
  | promotedAccount (a : Account)
  | notFoundOrAlreadyPromoted
  | notYetVerified
deriving DecidableEq, Repr

/-- Mark the pre-registration carrying `token` as promoted. -/
def markPromoted (l : List PreRegistration) (token : String) : List PreRegistration :=
  l.map (fun p => if p.token == token then { p with promoted := true } else p)

/-- `consume(token)` of the Staged Registration Ledger / Promotion Engine.
Modelled from the spec (§4.4-4.5): look up the not-yet-promoted staged
registration carrying `token`; absent (or already promoted) tokens fail with
`NotFound`/`AlreadyPromoted`; when both channel flags are true, create the
durable account from the staged identity exactly once and mark the row
promoted; otherwise nothing changes. -/
def consume (s : SystemState) (token : String) : ConsumeOutcome × SystemState :=
  match s.preRegs.find? (fun p => p.token == token && !p.promoted) with
  | none => (.notFoundOrAlreadyPromoted, s)
  | some p =>
    if p.email_verified && p.phone_verified then
      (.promotedAccount (accountOf p),
       { s with preRegs := markPromoted s.preRegs token,
                accounts := s.accounts ++ [accountOf p] })
    else
      (.notYetVerified, s)

/-- Result taxonomy of the Channel Verification Store (spec §4.2 / §7). -/
inductive VerificationResult where
  | verifiedOk
  | notFound
  | expired
  | mismatch
deriving DecidableEq, Repr

/-- The verification-code time-to-live: 10 minutes (spec §4.2 recommended
default). -/
def TTL_MINUTES : Int := 10

/-- The most recently issued, not-yet-consumed code row of a channel's
history (spec §4.2: "fetch the most recently issued, not-yet-consumed
ChannelVerification"). -/
def latestPending (l : List PreOTPRow) : Option PreOTPRow :=
  (l.filter (fun c => !c.verified)).foldl
    (fun acc c =>
      match acc with
      | none => some c
      | some b => if b.created_at < c.created_at then some c else some b)
    none

/-- Set `verified := true` on the first row equal to `c`. -/
def markVerified (l : List PreOTPRow) (c : PreOTPRow) : List PreOTPRow :=
  match l with
  | [] => []
  | x :: xs => if x == c then { x with verified := true } :: xs
               else x :: markVerified xs c

/-- `verify(subject, channel, submitted)` of the Channel Verification Store.
Modelled from the spec (§4.2): fetch the most recently issued unconsumed row;
`NotFound` if none; `Expired` if `now - issued_at` exceeds the 10-minute TTL,
leaving the row unconsumed even when the value matches; `Mismatch` if the code
differs (not auto-invalidating); on exact match within TTL, mark the row
consumed and answer `Verified`. -/
def verifyCode (l : List PreOTPRow) (now : Int) (submitted : String) :
    VerificationResult × List PreOTPRow :=
  match latestPending l with
  | none => (.notFound, l)
  | some c =>
    if TTL_MINUTES < now - c.created_at then (.expired, l)
    else if c.otp ≠ submitted then (.mismatch, l)
    else (.verifiedOk, markVerified l c)

/-!
## Change password and profile retrieval (fully in src/User/views.py)
-/

/-- `user.check_password(supplied)`: the credential-hashing collaborator is
external (spec §6, `matches(plaintext, opaque) -> bool`); the stored
credential is modelled as the value the hash check compares against, so
`check_password` is equality with the stored credential. -/
def check_password (stored supplied : String) : Bool :=
  stored == supplied

/-- `ChangePasswordView.post` (src/User/views.py lines 190-203): if
`check_password(current_password)` fails, answer 400 with an error and leave
the stored credential unchanged; otherwise `set_password(new_password)`,
save, and answer 200. Returns the response and the stored credential after
the call. -/
def changePasswordPost (stored current_password new_password : String) :
    Response × String :=
  if !check_password stored current_password then
    ({ status := 400, body := "Current password is incorrect." }, stored)
  else
    ({ status := 200, body := "Password updated successfully!" }, new_password)

/-- A `User` row as seen by `UserProfileView` (src/User/views.py): the id and
the `user_type` drive `get_object`. -/
structure ProfileUser where
  id : Nat
  user_type : String
deriving DecidableEq, Repr

/-- `UserProfileView.get_object` (src/User/views.py lines 176-180): when the
`user_id` query parameter is present and the requester's `user_type` is
`admin` or `counsellor`, return `User.objects.get(id=user_id)` (`none` models
the `DoesNotExist` exception); in every other case return the requester's own
record. -/
def getObject (users : List ProfileUser) (requester : ProfileUser)
    (user_id : Option Nat) : Option ProfileUser :=
  match user_id with
  | some uid =>
    if requester.user_type == "admin" || requester.user_type == "counsellor" then
      users.find? (fun u => u.id == uid)
    else
      some requester
  | none => some requester

/-!
## Theorems
-/

/-- C2: a resend-OTP request is denied with HTTP 429 exactly when 3 or more
email OTP events for the subject lie within the trailing 10 minutes, and a
password-reset request is denied exactly when 5 or more lie within the
trailing 15 minutes; with fewer events the request succeeds with 200 and
issues a new code; once every event is strictly older than the window, a
subsequent request succeeds. -/
theorem rate_limit_thresholds_exact (otps : List Int) (now : Int) :
    ((resendEmailOTPPost otps now).response.status = 429 ↔
      3 ≤ (recentOTPs otps now 10).length)
    ∧ ((recentOTPs otps now 10).length < 3 →
        (resendEmailOTPPost otps now).response.status = 200 ∧
        (resendEmailOTPPost otps now).otps = now :: otps)
    ∧ ((passwordResetRequestPost otps now).response.status = 429 ↔
      5 ≤ (recentOTPs otps now 15).length)
    ∧ ((recentOTPs otps now 15).length < 5 →
        (passwordResetRequestPost otps now).response.status = 200 ∧
        (passwordResetRequestPost otps now).otps = now :: otps)
    ∧ ((∀ t ∈ otps, t < now - 10) →
        (resendEmailOTPPost otps now).response.status = 200)
    ∧ ((∀ t ∈ otps, t < now - 15) →
        (passwordResetRequestPost otps now).response.status = 200) := by
  have hw10 : ResendEmailOTPView.RATE_LIMIT_MINUTES = (10 : Int) := rfl
  have hw15 : PasswordResetRequestView.RATE_LIMIT_MINUTES = (15 : Int) := rfl
  refine ⟨?_, ?_, ?_, ?_, ?_, ?_⟩
  · by_cases h : 3 ≤ (recentOTPs otps now 10).length <;>
      simp [resendEmailOTPPost, ResendEmailOTPView.MAX_ATTEMPTS, hw10, h]
  · intro h
    have h' : ¬ 3 ≤ (recentOTPs otps now 10).length := by omega
    simp [resendEmailOTPPost, ResendEmailOTPView.MAX_ATTEMPTS, hw10, h']
  · by_cases h : 5 ≤ (recentOTPs otps now 15).length <;>
      simp [passwordResetRequestPost, PasswordResetRequestView.MAX_ATTEMPTS, hw15, h]
  · intro h
    have h' : ¬ 5 ≤ (recentOTPs otps now 15).length := by omega
    simp [passwordResetRequestPost, PasswordResetRequestView.MAX_ATTEMPTS, hw15, h']
  · intro h
    have hnil : recentOTPs otps now 10 = [] := by
      simp only [recentOTPs, List.filter_eq_nil_iff]
      intro t ht
      have := h t ht
      simp only [decide_eq_true_eq]
      omega
    simp [resendEmailOTPPost, ResendEmailOTPView.MAX_ATTEMPTS, hw10, hnil]
  · intro h
    have hnil : recentOTPs otps now 15 = [] := by
      simp only [recentOTPs, List.filter_eq_nil_iff]
      intro t ht
      have := h t ht
      simp only [decide_eq_true_eq]
      omega
    simp [passwordResetRequestPost, PasswordResetRequestView.MAX_ATTEMPTS, hw15, hnil]

/-- Witness for `rate_limit_thresholds_exact`: with three events inside the
10-minute window, the fourth resend at minute 5 is denied with 429. -/
theorem rate_limit_thresholds_exact_witness :
    (resendEmailOTPPost [0, 1, 2] 5).response.status = 429 :=
  (rate_limit_thresholds_exact [0, 1, 2] 5).1.mpr (by decide)

/-- C3: a rate-limit denial (429) of either rate-limited operation leaves the
email OTP store unchanged: no new event is created by a denied request. -/
theorem denied_request_leaves_store_unchanged (otps : List Int) (now : Int) :
    ((resendEmailOTPPost otps now).response.status = 429 →
      (resendEmailOTPPost otps now).otps = otps)
    ∧ ((passwordResetRequestPost otps now).response.status = 429 →
      (passwordResetRequestPost otps now).otps = otps) := by
  constructor
  · intro h
    by_cases hc : ResendEmailOTPView.MAX_ATTEMPTS ≤
        (recentOTPs otps now ResendEmailOTPView.RATE_LIMIT_MINUTES).length
    · simp [resendEmailOTPPost, hc]
    · simp [resendEmailOTPPost, hc] at h
  · intro h
    by_cases hc : PasswordResetRequestView.MAX_ATTEMPTS ≤
        (recentOTPs otps now PasswordResetRequestView.RATE_LIMIT_MINUTES).length
    · simp [passwordResetRequestPost, hc]
    · simp [passwordResetRequestPost, hc] at h

/-- Witness for `denied_request_leaves_store_unchanged`: the denied fourth
resend at minute 5 leaves the three stored events untouched. -/
theorem denied_request_leaves_store_unchanged_witness :
    (resendEmailOTPPost [0, 1, 2] 5).otps = [0, 1, 2] :=
  (denied_request_leaves_store_unchanged [0, 1, 2] 5).1 (by decide)

/-- C4 counterexample: with email OTP events at minutes 0..4, the reset
request at minute 5 is denied; the oldest counted event exits the 15-minute
window after 10 more minutes, yet the response body carries the fixed
15-minute window length, not the 10 remaining minutes. -/
theorem denial_body_not_remaining_minutes_counterexample :
    (passwordResetRequestPost [0, 1, 2, 3, 4] 5).response.status = 429
    ∧ minutesUntilOldestExits [0, 1, 2, 3, 4] 5 15 = 10
    ∧ (passwordResetRequestPost [0, 1, 2, 3, 4] 5).response.body ≠
        resetDenialBody (minutesUntilOldestExits [0, 1, 2, 3, 4] 5 15) := by
  refine ⟨by decide, by decide, by decide⟩

/-- C4 amended: every rate-limit denial response carries a wait duration equal
to the fixed configured window length (10 minutes for resend OTP, 15 minutes
for password reset), regardless of when the oldest counted event exits the
window. -/
theorem denial_body_is_fixed_window_length (otps : List Int) (now : Int) :
    ((resendEmailOTPPost otps now).response.status = 429 →
      (resendEmailOTPPost otps now).response.body = resendDenialBody 10)
    ∧ ((passwordResetRequestPost otps now).response.status = 429 →
      (passwordResetRequestPost otps now).response.body = resetDenialBody 15) := by
  constructor
  · intro h
    by_cases hc : ResendEmailOTPView.MAX_ATTEMPTS ≤
        (recentOTPs otps now ResendEmailOTPView.RATE_LIMIT_MINUTES).length
    · have he : resendEmailOTPPost otps now =
          { response := { status := 429,
                          body := resendDenialBody ResendEmailOTPView.RATE_LIMIT_MINUTES },
            otps := otps } := by
        simp [resendEmailOTPPost, hc]
      rw [he]
      rfl
    · simp [resendEmailOTPPost, hc] at h
  · intro h
    by_cases hc : PasswordResetRequestView.MAX_ATTEMPTS ≤
        (recentOTPs otps now PasswordResetRequestView.RATE_LIMIT_MINUTES).length
    · have he : passwordResetRequestPost otps now =
          { response := { status := 429,
                          body := resetDenialBody PasswordResetRequestView.RATE_LIMIT_MINUTES },
            otps := otps } := by
        simp [passwordResetRequestPost, hc]
      rw [he]
      rfl
    · simp [passwordResetRequestPost, hc] at h

/-- Witness for `denial_body_is_fixed_window_length`: the denied reset at
minute 5 carries the fixed 15-minute duration. -/
theorem denial_body_is_fixed_window_length_witness :
    (passwordResetRequestPost [0, 1, 2, 3, 4] 5).response.body = resetDenialBody 15 :=
  (denial_body_is_fixed_window_length [0, 1, 2, 3, 4] 5).2 (by decide)

/-- C5 counterexample: both email-channel policies read the same `EmailOTP`
rows. Five successful resend-OTP calls (at minutes 0, 1, 2, 11, 12, each
chaining the store produced by the previous one) produce five email events;
the password-reset request at minute 13 is then denied with 429 although no
password-reset event was ever recorded, so the reset window counts events of
the resend operation class. -/
theorem shared_email_event_set_counterexample :
    (resendEmailOTPPost [] 0).response.status = 200
    ∧ (resendEmailOTPPost [] 0).otps = [0]
    ∧ (resendEmailOTPPost [0] 1).response.status = 200
    ∧ (resendEmailOTPPost [0] 1).otps = [1, 0]
    ∧ (resendEmailOTPPost [1, 0] 2).response.status = 200
    ∧ (resendEmailOTPPost [1, 0] 2).otps = [2, 1, 0]
    ∧ (resendEmailOTPPost [2, 1, 0] 11).response.status = 200
    ∧ (resendEmailOTPPost [2, 1, 0] 11).otps = [11, 2, 1, 0]
    ∧ (resendEmailOTPPost [11, 2, 1, 0] 12).response.status = 200
    ∧ (resendEmailOTPPost [11, 2, 1, 0] 12).otps = [12, 11, 2, 1, 0]
    ∧ (passwordResetRequestPost [12, 11, 2, 1, 0] 13).response.status = 429 := by
  decide

/-- C5 amended: rate-limit windows are keyed by (subject, channel) only, not
by operation class: the resend-OTP and password-reset policies count the same
email OTP event set, so an event recorded by a successful resend also counts
toward the password-reset window while it lies within the 15-minute window. -/
theorem resend_event_counts_toward_reset_window (otps : List Int) (now t : Int)
    (hok : (resendEmailOTPPost otps t).response.status = 200)
    (hin : now - 15 ≤ t) :
    (recentOTPs (resendEmailOTPPost otps t).otps now 15).length
      = (recentOTPs otps now 15).length + 1 := by
  by_cases hc : ResendEmailOTPView.MAX_ATTEMPTS ≤
      (recentOTPs otps t ResendEmailOTPView.RATE_LIMIT_MINUTES).length
  · simp [resendEmailOTPPost, hc] at hok
  · have he : (resendEmailOTPPost otps t).otps = t :: otps := by
      simp [resendEmailOTPPost, hc]
    rw [he]
    have hin' : now ≤ t + 15 := by omega
    simp [recentOTPs, List.filter_cons, hin']

/-- Witness for `resend_event_counts_toward_reset_window`: the event of the
successful resend at minute 0 raises the reset-window count at minute 5 from
0 to 1. -/
theorem resend_event_counts_toward_reset_window_witness :
    (recentOTPs (resendEmailOTPPost [] 0).otps 5 15).length
      = (recentOTPs [] 5 15).length + 1 :=
  resend_event_counts_toward_reset_window [] 5 0 (by decide) (by decide)

/-- C6 counterexample: with `a@x.com` registered and no prior events, the
reset request for the known email answers 200 while the request for the
unknown `b@x.com` answers a distinguishing 404: the two responses differ in
shape. -/
theorem reset_unknown_email_distinguishable_counterexample :
    (passwordResetRequestEndpoint ["a@x.com"] [] "a@x.com" 0).response.status = 200
    ∧ (passwordResetRequestEndpoint ["a@x.com"] [] "b@x.com" 0).response.status = 404
    ∧ (passwordResetRequestEndpoint ["a@x.com"] [] "a@x.com" 0).response ≠
        (passwordResetRequestEndpoint ["a@x.com"] [] "b@x.com" 0).response := by
  decide

/-- C6 amended: a password-reset request for an unregistered email is answered
with a distinguishing 404 not-found failure (and records no event), while a
registered email below the rate limit receives the 200 acknowledgment: the
two responses are distinguishable. -/
theorem reset_unknown_email_yields_404 (emails : List String) (otps : List Int)
    (email : String) (now : Int) :
    (email ∉ emails →
      (passwordResetRequestEndpoint emails otps email now).response.status = 404 ∧
      (passwordResetRequestEndpoint emails otps email now).otps = otps)
    ∧ (email ∈ emails → (recentOTPs otps now 15).length < 5 →
      (passwordResetRequestEndpoint emails otps email now).response.status = 200) := by
  constructor
  · intro h
    simp [passwordResetRequestEndpoint, h]
  · intro h hlt
    have h' : ¬ PasswordResetRequestView.MAX_ATTEMPTS ≤
        (recentOTPs otps now PasswordResetRequestView.RATE_LIMIT_MINUTES).length := by
      simpa [PasswordResetRequestView.MAX_ATTEMPTS,
        PasswordResetRequestView.RATE_LIMIT_MINUTES] using Nat.not_le.mpr hlt
    simp [passwordResetRequestEndpoint, h, passwordResetRequestPost, h']

/-- Witness for `reset_unknown_email_yields_404`: the unknown email `b@x.com`
is answered 404 with the store untouched. -/
theorem reset_unknown_email_yields_404_witness :
    (passwordResetRequestEndpoint ["a@x.com"] [] "b@x.com" 0).response.status = 404 ∧
    (passwordResetRequestEndpoint ["a@x.com"] [] "b@x.com" 0).otps = [] :=
  (reset_unknown_email_yields_404 ["a@x.com"] [] "b@x.com" 0).1 (by decide)

/-- C7: once the 10-minute TTL of the pending verification code has elapsed,
`verify` fails with `Expired` for every submitted value — the matching value
included — and the store is unchanged, so the expired code is never marked
consumed by a late correct guess. -/
theorem expired_code_never_consumed (l : List PreOTPRow) (now : Int)
    (submitted : String) (c : PreOTPRow) (hc : latestPending l = some c)
    (hexp : TTL_MINUTES < now - c.created_at) :
    verifyCode l now submitted = (.expired, l) := by
  simp [verifyCode, hc, hexp]

/-- Witness for `expired_code_never_consumed`: the code `123456` issued at
minute 0 is submitted with the exactly matching value at minute 11; the call
answers `Expired` and the row stays unconsumed. -/
theorem expired_code_never_consumed_witness :
    verifyCode [{ pre_token := "T", otp := "123456", created_at := 0, verified := false }]
        11 "123456"
      = (.expired,
         [{ pre_token := "T", otp := "123456", created_at := 0, verified := false }]) :=
  expired_code_never_consumed
    [{ pre_token := "T", otp := "123456", created_at := 0, verified := false }]
    11 "123456"
    { pre_token := "T", otp := "123456", created_at := 0, verified := false }
    (by decide) (by decide)

/-- C8: every successful registration creates one staged registration with
`email_verified = phone_verified = false`, one pending (unconsumed) email
verification and one pending phone verification, answers 201 carrying the
promotion token, and creates no durable account. -/
theorem register_creates_staged_registration_only (s : SystemState)
    (email phone utype hashed tok ecode pcode : String) (now : Int) :
    (register s email phone utype hashed tok ecode pcode now).1 =
      { status := 201, pre_token := tok }
    ∧ (register s email phone utype hashed tok ecode pcode now).2.preRegs =
        s.preRegs ++ [{ email := email, phone := phone, user_type := utype,
                        password_hash := hashed, token := tok,
                        email_verified := false, phone_verified := false,
                        promoted := false, created_at := now }]
    ∧ (register s email phone utype hashed tok ecode pcode now).2.preEmailOTPs =
        s.preEmailOTPs ++
          [{ pre_token := tok, otp := ecode, created_at := now, verified := false }]
    ∧ (register s email phone utype hashed tok ecode pcode now).2.prePhoneOTPs =
        s.prePhoneOTPs ++
          [{ pre_token := tok, otp := pcode, created_at := now, verified := false }]
    ∧ (register s email phone utype hashed tok ecode pcode now).2.accounts =
        s.accounts :=
  ⟨rfl, rfl, rfl, rfl, rfl⟩

/-- C9: a change-password request whose `current_password` fails the
credential check answers 400 and leaves the stored credential unchanged; one
whose `current_password` matches answers 200 and replaces the stored
credential by the new password. -/
theorem change_password_requires_current_password (stored current fresh : String) :
    (stored ≠ current →
      (changePasswordPost stored current fresh).1.status = 400 ∧
      (changePasswordPost stored current fresh).2 = stored)
    ∧ (stored = current →
      (changePasswordPost stored current fresh).1.status = 200 ∧
      (changePasswordPost stored current fresh).2 = fresh) := by
  constructor
  · intro h
    simp [changePasswordPost, check_password, h]
  · intro h
    simp [changePasswordPost, check_password, h]

/-- Witness for `change_password_requires_current_password`: a wrong current
password is rejected with 400 and the stored credential survives. -/
theorem change_password_requires_current_password_witness :
    (changePasswordPost "old" "wrong" "fresh").1.status = 400 ∧
    (changePasswordPost "old" "wrong" "fresh").2 = "old" :=
  (change_password_requires_current_password "old" "wrong" "fresh").1 (by decide)

/-- C10: `get_object` honors the `user_id` query parameter only when the
requester's `user_type` is `admin` or `counsellor`; any other requester gets
their own record back whatever `user_id` they supply, so a non-privileged user
cannot select another user's profile through the parameter. -/
theorem profile_user_id_only_for_privileged (users : List ProfileUser)
    (requester : ProfileUser) (uid : Nat) :
    (requester.user_type ≠ "admin" → requester.user_type ≠ "counsellor" →
      getObject users requester (some uid) = some requester)
    ∧ ((requester.user_type = "admin" ∨ requester.user_type = "counsellor") →
      getObject users requester (some uid) = users.find? (fun u => u.id == uid))
    ∧ getObject users requester none = some requester := by
  refine ⟨?_, ?_, rfl⟩
  · intro h1 h2
    simp [getObject, h1, h2]
  · intro h
    rcases h with h | h <;> simp [getObject, h]

/-- Witness for `profile_user_id_only_for_privileged`: a `student` requester
asking for `user_id = 2` still receives their own record. -/
theorem profile_user_id_only_for_privileged_witness :
    getObject [{ id := 2, user_type := "admin" }] { id := 1, user_type := "student" }
        (some 2)
      = some { id := 1, user_type := "student" } :=
  (profile_user_id_only_for_privileged [{ id := 2, user_type := "admin" }]
    { id := 1, user_type := "student" } 2).1 (by decide) (by decide)

/-- In a ledger whose promotion tokens are pairwise distinct, two members
sharing a token are the same row. -/
theorem preReg_eq_of_token_eq {l : List PreRegistration}
    (h : l.Pairwise (fun a b => a.token ≠ b.token)) :
    ∀ p ∈ l, ∀ q ∈ l, p.token = q.token → p = q := by
  induction l with
  | nil => simp
  | cons x xs ih =>
    intro p hp q hq heq
    rcases List.pairwise_cons.mp h with ⟨hx, hxs⟩
    rcases List.mem_cons.mp hp with rfl | hp'
    · rcases List.mem_cons.mp hq with rfl | hq'
      · rfl
      · exact absurd heq (hx q hq')
    · rcases List.mem_cons.mp hq with rfl | hq'
      · exact absurd heq.symm (hx p hp')
      · exact ih hxs p hp' q hq' heq

/-- No row of a ledger after `markPromoted l token` still matches the consume
lookup for `token`. -/
theorem markPromoted_no_pending (l : List PreRegistration) (token : String) :
    ∀ x ∈ markPromoted l token, ¬ (x.token == token && !x.promoted) = true := by
  intro x hx
  rcases List.mem_map.mp hx with ⟨x₀, _, rfl⟩
  by_cases ht : x₀.token == token
  · simp [ht]
  · simp [ht]

/-- C1: presenting a promotion token promotes to a durable account exactly
when the ledger holds a not-yet-promoted staged registration carrying that
token whose email and phone flags are both true; a successful promotion
appends exactly that one account, and presenting the same token again fails
with `NotFound`/`AlreadyPromoted` leaving the state — the accounts included —
unchanged, so no second account is ever created. -/
theorem consume_promotes_iff_both_verified_and_at_most_once (s : SystemState)
    (token : String)
    (huniq : s.preRegs.Pairwise (fun a b => a.token ≠ b.token)) :
    ((∃ a, (consume s token).1 = ConsumeOutcome.promotedAccount a) ↔
      ∃ p ∈ s.preRegs, p.token = token ∧ p.promoted = false ∧
        p.email_verified = true ∧ p.phone_verified = true)
    ∧ (∀ a, (consume s token).1 = ConsumeOutcome.promotedAccount a →
        (consume s token).2.accounts = s.accounts ++ [a] ∧
        consume (consume s token).2 token =
          (ConsumeOutcome.notFoundOrAlreadyPromoted, (consume s token).2)) := by
  cases hf : s.preRegs.find? (fun p => p.token == token && !p.promoted) with
  | none =>
    have hall := List.find?_eq_none.mp hf
    constructor
    · constructor
      · intro ⟨a, ha⟩
        simp [consume, hf] at ha
      · intro ⟨p, hp, ht, hpr, _, _⟩
        have := hall p hp
        simp [ht, hpr] at this
    · intro a ha
      simp [consume, hf] at ha
  | some p =>
    have hpred := List.find?_some hf
    have hmem := List.mem_of_find?_eq_some hf
    have ht : p.token = token := by
      have := (Bool.and_eq_true _ _).mp hpred
      exact beq_iff_eq.mp this.1
    have hpr : p.promoted = false := by
      have := (Bool.and_eq_true _ _).mp hpred
      simpa using this.2
    by_cases hv : (p.email_verified && p.phone_verified) = true
    · have hce : consume s token =
          (ConsumeOutcome.promotedAccount (accountOf p),
           { s with preRegs := markPromoted s.preRegs token,
                    accounts := s.accounts ++ [accountOf p] }) := by
        simp [consume, hf, hv]
      constructor
      · constructor
        · intro _
          exact ⟨p, hmem, ht, hpr, (Bool.and_eq_true _ _).mp hv⟩
        · intro _
          exact ⟨accountOf p, by rw [hce]⟩
      · intro a ha
        rw [hce] at ha
        have haeq : accountOf p = a := by
          injection ha
        constructor
        · rw [hce, ← haeq]
        · have hnone : (markPromoted s.preRegs token).find?
              (fun q => q.token == token && !q.promoted) = none :=
            List.find?_eq_none.mpr (markPromoted_no_pending s.preRegs token)
          rw [hce]
          simp [consume, hnone]
    · have hce : consume s token = (ConsumeOutcome.notYetVerified, s) := by
        simp [consume, hf, hv]
      constructor
      · constructor
        · intro ⟨a, ha⟩
          rw [hce] at ha
          simp at ha
        · intro ⟨q, hq, hqt, hqpr, hqe, hqp⟩
          have hpq : p = q := preReg_eq_of_token_eq huniq p hmem q hq (by rw [ht, hqt])
          rw [hpq, hqe, hqp] at hv
          simp at hv
      · intro a ha
        rw [hce] at ha
        simp at ha

/-- A fully verified staged registration used to witness the promotion
invariant. -/
def preFull : PreRegistration :=
  { email := "a@x.com", phone := "9876543210", user_type := "student",
    password_hash := "hashed", token := "T", email_verified := true,
    phone_verified := true, promoted := false, created_at := 0 }

/-- The one-entry ledger holding `preFull` and no accounts. -/
def stateFull : SystemState :=
  { preRegs := [preFull], preEmailOTPs := [], prePhoneOTPs := [], accounts := [] }

/-- Witness for `consume_promotes_iff_both_verified_and_at_most_once`:
consuming token `T` on the fully verified ledger creates the one account, and
a second consume of `T` fails with `NotFound`/`AlreadyPromoted` without
touching the state. -/
theorem consume_promotes_at_most_once_witness :
    (consume stateFull "T").2.accounts = stateFull.accounts ++ [accountOf preFull] ∧
    consume (consume stateFull "T").2 "T" =
      (ConsumeOutcome.notFoundOrAlreadyPromoted, (consume stateFull "T").2) :=
  (consume_promotes_iff_both_verified_and_at_most_once stateFull "T"
    (by decide)).2 (accountOf preFull) (by decide)
